import Mathlib

/-!
Verification development for the farrow-session repository.

The embedding covers the two components the claims are about:

* `src/cookie.ts`: the built-in `cookieSessionParser` and `cookieSessionStore`
  (AES-encrypted, self-expiring cookie store).  The node `crypto` cipher,
  base64 transport coding and `JSON.stringify`/`JSON.parse` are external
  collaborators; they are modelled as an abstract `CipherSpec` pair
  `encrypt`/`decrypt`, where `decrypt` returning `none` stands for the
  `decipher.update`/`final`/`JSON.parse` path throwing (which the source
  catches).  The JSON envelope `{...sessionData, _expires}` is modelled by the
  `Envelope` structure: the application payload plus the optional `_expires`
  number.

* `src/session.ts`: the `createFarrowSession` middleware (session-resolution
  branches, `regenerateId`, the autosave step).  The parser and store it is
  configured with are arbitrary, so they are modelled as records of functions
  over an explicit state (`SessionState`) holding the store's private state
  and the `sessionHeaderCtx` response-mutation accumulator.

JavaScript's `null` is modelled by `TriState.soft`, `undefined` by
`TriState.hard`, a successful value by `TriState.ok`.  `Date.now()` is passed
in explicitly as an integer `now`.
-/

namespace FarrowSession

/-- Tri-state result of a `SessionStore` operation, as declared in
`src/session.ts`: a success value (`ok`), the soft-failure marker
(JS `null`, `soft`) or the hard-failure marker (JS `undefined`, `hard`). -/
inductive TriState (α : Type) where
  | ok (a : α)
  | soft
  | hard
deriving DecidableEq, Repr

/-- The JSON envelope `{...sessionData, _expires}` written by
`cookieSessionStore.set` and read back by `get`.  `expires = none` models a
decrypted object with no `_expires` field. -/
structure Envelope (Data : Type) where
  data : Data
  expires : Option Int
deriving DecidableEq, Repr

/-- Abstract model of the external encryption pipeline of `src/cookie.ts`
(`JSON.stringify`, `aes-256-cbc` under key `sha256(sessionStoreKey)` and iv
`idToIv(sessionId)`, base64).  `encrypt id env` is the cookie value produced
for session identifier `id`; `decrypt id s = none` models the decryption /
JSON-parse path throwing, which the source catches. -/
structure CipherSpec (Data : Type) where
  encrypt : String → Envelope Data → String
  decrypt : String → String → Option (Envelope Data)

/-- Expiry attribute carried by a `Response.cookie` mutation: either a
relative `maxAge` (milliseconds) or an absolute `expires` timestamp
(`new Date(t)`, epoch milliseconds). -/
inductive CookieExpiry where
  | maxAge (n : Int)
  | expiresAt (t : Int)
deriving DecidableEq, Repr

/-- A `Response.cookie(key, value, options)` response mutation, as appended to
`sessionHeaderCtx` by the store or returned by the parser. -/
structure CookieMutation where
  key : String
  value : String
  expiry : CookieExpiry
deriving DecidableEq, Repr

/-- The `expiresOptions.time` configuration field of `cookieSessionStore`:
absent, a number, or a zero-argument function.  The function variant is
modelled as a sequence of return values indexed by invocation count, so that
the number of times the source actually calls it is observable. -/
inductive TimeOpt where
  | noTime
  | num (n : Int)
  | timeFn (f : Nat → Int)

/-- Lines 116-120 of `src/cookie.ts`:
`options.expiresOptions.time ? (typeof time === 'function' ? time() : time) : options.cookieOptions.maxAge`.
A number `0` is falsy in JS, hence falls back to `cookieOptions.maxAge`; a
function is truthy and is invoked (its first invocation, index `0`). -/
def resolveMaxAge (t : TimeOpt) (cookieMaxAge : Int) : Int :=
  match t with
  | .noTime => cookieMaxAge
  | .num n => if n = 0 then cookieMaxAge else n
  | .timeFn f => f 0

/-- Configuration of `cookieSessionStore` after the options merge: the cookie
name `sessionStoreKey`, the abstract cipher, `expiresOptions.rolling`, and the
`maxAge` constant the source computes once at store construction. -/
structure CookieStoreConfig (Data : Type) where
  storeKey : String
  cipher : CipherSpec Data
  rolling : Bool
  maxAge : Int

/-- Store construction (`cookieSessionStore(...)`): the `maxAge` constant is
resolved once, at construction time, from `expiresOptions.time` and
`cookieOptions.maxAge`. -/
def mkCookieStoreConfig (storeKey : String) (cipher : CipherSpec Data)
    (rolling : Bool) (t : TimeOpt) (cookieMaxAge : Int) : CookieStoreConfig Data :=
  ⟨storeKey, cipher, rolling, resolveMaxAge t cookieMaxAge⟩

/-- The expiry test on line 145 of `src/cookie.ts`:
`decryptedData._expires && decryptedData._expires < now` (JS truthiness: a
missing or zero `_expires` is falsy, so the session is not treated as
expired). -/
def isExpired (e : Option Int) (now : Int) : Bool :=
  match e with
  | none => false
  | some v => decide (v ≠ 0) && decide (v < now)

/-- `cookieSessionStore.set` (lines 164-185 of `src/cookie.ts`): encrypt
`{...sessionData, _expires: Date.now() + maxAge}` under the session
identifier, append a `Response.cookie(sessionStoreKey, encrypted, {maxAge})`
mutation to `sessionHeaderCtx`, and return `true`. -/
def cookieStoreSet (cfg : CookieStoreConfig Data) (now : Int) (sessionId : String)
    (d : Data) (hdrs : List CookieMutation) : TriState Unit × List CookieMutation :=
  let encrypted := cfg.cipher.encrypt sessionId ⟨d, some (now + cfg.maxAge)⟩
  (.ok (), hdrs ++ [⟨cfg.storeKey, encrypted, .maxAge cfg.maxAge⟩])

/-- `cookieSessionStore.destroy` (lines 186-192 of `src/cookie.ts`): append a
clearing mutation `Response.cookie(sessionStoreKey, '', {maxAge: -1})` and
return `true`.  It ignores its session-identifier argument. -/
def cookieStoreDestroy (cfg : CookieStoreConfig Data)
    (hdrs : List CookieMutation) : TriState Unit × List CookieMutation :=
  (.ok (), hdrs ++ [⟨cfg.storeKey, "", .maxAge (-1)⟩])

/-- `cookieSessionStore.get` (lines 130-163 of `src/cookie.ts`).
`cookieVal` is `requestInfo.cookies?.[options.sessionStoreKey]`.  Absent
cookie or a failing decryption/parse returns the soft marker (`null`); an
embedded, truthy `_expires` in the past triggers `this.destroy` and the soft
marker; with `rolling` configured the expiry is refreshed and the session
re-`set` before the (refreshed) envelope is returned. -/
def cookieStoreGet (cfg : CookieStoreConfig Data) (now : Int) (sessionId : String)
    (cookieVal : Option String) (hdrs : List CookieMutation) :
    TriState (Envelope Data) × List CookieMutation :=
  match cookieVal with
  | none => (.soft, hdrs)
  | some s =>
    match cfg.cipher.decrypt sessionId s with
    | none => (.soft, hdrs)
    | some env =>
      if isExpired env.expires now then
        (.soft, (cookieStoreDestroy cfg hdrs).2)
      else if cfg.rolling then
        (.ok ⟨env.data, some (now + cfg.maxAge)⟩,
         (cookieStoreSet cfg now sessionId env.data hdrs).2)
      else
        (.ok env, hdrs)

/-- `cookieSessionStore.create` (lines 122-129 of `src/cookie.ts`): mint a
fresh identifier (`ulid()`, an external input, passed in as `newId`), run the
caller-supplied `dataCreator` on the request and any carried-over data (the
request is absorbed into `dataCreator`), and return the pair.  It never
returns the soft or hard marker. -/
def cookieStoreCreate (newId : String) (dataCreator : Option Data → Data)
    (carried : Option Data) : TriState (String × Data) :=
  .ok (newId, dataCreator carried)

/-- A `SessionMeta` object as seen by `cookieSessionParser.set`: the abstract
rest of the object plus the optional `expireTime` / `expiresTime` fields it
probes (modelled as numbers; the source applies `Number(...)`).  `none` models
an absent (or nullish) field. -/
structure SessionMetaObj (M : Type) where
  core : M
  expireTime : Option Int
  expiresTime : Option Int
deriving DecidableEq

/-- Configuration of `cookieSessionParser`: the cookie name `sessionInfoKey`,
the encoding of the meta object into the cookie value (`JSON.stringify` plus
base64 or the custom codec — external, abstract), and
`cookieOptions.maxAge`. -/
structure CookieParserConfig (M : Type) where
  infoKey : String
  encode : SessionMetaObj M → String
  maxAge : Int

/-- `cookieSessionParser.set` (lines 45-70 of `src/cookie.ts`):
`expiresTime := meta.expireTime ?? meta.expiresTime`; if that is truthy the
mutation carries `expires: new Date(Number(expiresTime))` — the value itself,
as an absolute timestamp — otherwise it carries
`maxAge: options.cookieOptions.maxAge`. -/
def cookieParserSet (cfg : CookieParserConfig M) (m : SessionMetaObj M) : CookieMutation :=
  let et := match m.expireTime with
    | some e => some e
    | none => m.expiresTime
  match et with
  | some e =>
      if e = 0 then ⟨cfg.infoKey, cfg.encode m, .maxAge cfg.maxAge⟩
      else ⟨cfg.infoKey, cfg.encode m, .expiresAt e⟩
  | none => ⟨cfg.infoKey, cfg.encode m, .maxAge cfg.maxAge⟩

/-- `cookieSessionParser.remove` (lines 71-73 of `src/cookie.ts`). -/
def cookieParserRemove (cfg : CookieParserConfig M) : CookieMutation :=
  ⟨cfg.infoKey, "", .maxAge (-1)⟩

/-!
The `createFarrowSession` middleware of `src/session.ts` is generic in the
configured parser and store, so those are modelled as records of functions
over an explicit request-scoped state: the store's private state `σ` together
with the `sessionHeaderCtx` accumulator (shared between the middleware and a
store such as `cookieSessionStore`, which appends to it too). -/

/-- Request-scoped state threaded through store operations and the
middleware: the store's private state and the `sessionHeaderCtx` list of
response mutations. -/
structure SessionState (σ Resp : Type) where
  inner : σ
  hdrs : List Resp

/-- An arbitrary configured `SessionStore` (the interface of
`src/session.ts`), with JS `null`/`undefined` results as
`TriState.soft`/`TriState.hard`.  `create` takes the optional carried-over
session data (its `request` argument is fixed for the request and absorbed
into the function). -/
structure StoreModel (Data Info Meta σ Resp : Type) where
  get : Info → SessionState σ Resp → TriState (Meta × Data) × SessionState σ Resp
  set : Meta → Data → SessionState σ Resp → TriState Unit × SessionState σ Resp
  create : Option Data → SessionState σ Resp → TriState (Meta × Data) × SessionState σ Resp
  destroy : Meta → SessionState σ Resp → TriState Unit × SessionState σ Resp

/-- An arbitrary configured `SessionParser` during one request: `parsed` is
the result of `sessionParser.get(request)` (`none` for JS-falsy, i.e. the
absent marker), and `set`/`remove` produce the response mutations. -/
structure ParserModel (Info Meta Resp : Type) where
  parsed : Option Info
  set : Meta → Resp
  remove : Meta → Resp

/-- Outcome of the session-resolution phase of the middleware (the part of
`createFarrowSession` before `next()` runs): either the early
`Response.json({error:'Internal Server Error'}).status(500)` return — the
downstream handler is not invoked — or the `Active` state with the bound
SessionMeta (`sessionMetaCtx`), the seeded session data (`sessionCtx`) and
the updated request state. -/
inductive Resolved (Data Meta σ Resp : Type) where
  | serverError
  | active (meta : Meta) (data : Data) (st : SessionState σ Resp)

/-- The session-creation branch of the middleware (lines 126-133 and
141-147 of `src/session.ts`, identical in both places): call
`sessionStore.create(request)`; `if (!createResult)` — both the soft and the
hard marker — return the 500 response; otherwise bind the returned
meta/data and append a `sessionParser.set(sessionMeta)` mutation to
`sessionHeaderCtx`. -/
def createSession (P : ParserModel Info Meta Resp) (S : StoreModel Data Info Meta σ Resp)
    (st : SessionState σ Resp) : Resolved Data Meta σ Resp :=
  match S.create none st with
  | (.ok (m, d), st2) => .active m d ⟨st2.inner, st2.hdrs ++ [P.set m]⟩
  | (.soft, _) => .serverError
  | (.hard, _) => .serverError

/-- Session resolution (lines 122-154 of `src/session.ts`): parse the
request; if the parsed SessionInfo is absent create a new session; otherwise
`sessionStore.get` decides — hard marker: 500; soft marker: create a new
session; success: bind the returned meta/data with no new mutation. -/
def resolveSession (P : ParserModel Info Meta Resp) (S : StoreModel Data Info Meta σ Resp)
    (st : SessionState σ Resp) : Resolved Data Meta σ Resp :=
  match P.parsed with
  | none => createSession P S st
  | some info =>
    match S.get info st with
    | (.hard, _) => .serverError
    | (.soft, st2) => createSession P S st2
    | (.ok (m, d), st2) => .active m d st2

/-- Return value of a `sessionCtx` lifecycle operation:
`true` / `false` / JS `null` / JS `undefined`. -/
inductive LifecycleResult where
  | okTrue
  | noSession
  | softNull
  | hardUndef
deriving DecidableEq, Repr

/-- `sessionCtx.regenerateId` (lines 157-167 of `src/session.ts`): if
`sessionCtx.get()` is `undefined` return `false`; else call
`sessionStore.create(request, session)` forwarding the current data;
`if (!createResult) return createResult` — the soft or hard marker verbatim;
on success rebind `sessionMetaCtx`, append `sessionParser.set(sessionMeta)`
and return `true`.  Returns the result, the new `sessionMetaCtx` binding and
the new state. -/
def regenerateId (P : ParserModel Info Meta Resp) (S : StoreModel Data Info Meta σ Resp)
    (dataCtx : Option Data) (metaCtx : Option Meta) (st : SessionState σ Resp) :
    LifecycleResult × Option Meta × SessionState σ Resp :=
  match dataCtx with
  | none => (.noSession, metaCtx, st)
  | some d =>
    match S.create (some d) st with
    | (.hard, st2) => (.hardUndef, metaCtx, st2)
    | (.soft, st2) => (.softNull, metaCtx, st2)
    | (.ok (m, _), st2) => (.okTrue, some m, ⟨st2.inner, st2.hdrs ++ [P.set m]⟩)

/-- Outcome of the post-handler phase of the middleware. -/
inductive FinalOutcome (Resp : Type) where
  | err500
  | err401
  | merged (hdrs : List Resp)

/-- The autosave-and-merge step (lines 190-197 of `src/session.ts`): if
`autoSave` is configured and a SessionMeta is still bound, call
`sessionStore.set(sessionMeta, sessionCtx.get())`; the hard marker yields the
500 response, the soft marker the 401 `SessionStore Set Failed` response;
otherwise the accumulated `sessionHeaderCtx` mutations are merged into the
final response. -/
def autoSaveStep (S : StoreModel Data Info Meta σ Resp) (autoSave : Bool)
    (metaCtx : Option Meta) (dataCtx : Data) (st : SessionState σ Resp) :
    FinalOutcome Resp :=
  match autoSave, metaCtx with
  | true, some m =>
    match S.set m dataCtx st with
    | (.hard, _) => .err500
    | (.soft, _) => .err401
    | (.ok _, st2) => .merged st2.hdrs
  | true, none => .merged st.hdrs
  | false, _ => .merged st.hdrs

/-!
Concrete instances used by counterexamples and witnesses.  `wCipher` is a toy
`CipherSpec` that is invertible on the two envelopes the witnesses use. -/

/-- Toy cipher over `Data := Nat`, invertible on the envelopes
`⟨7, some 20⟩` and `⟨7, some 30⟩`. -/
def wCipher : CipherSpec Nat :=
  ⟨fun _ env =>
      if env = ⟨7, some 20⟩ then "a" else if env = ⟨7, some 30⟩ then "b" else "z",
   fun _ s =>
      if s = "a" then some ⟨7, some 20⟩ else if s = "b" then some ⟨7, some 30⟩ else none⟩

/-- Toy cipher whose decryption maps `"c0"` to an envelope with
`_expires = 0` and `"cx"` to one with `_expires = 3`. -/
def zeroExpiryCipher : CipherSpec Nat :=
  ⟨fun _ _ => "z",
   fun _ s =>
      if s = "c0" then some ⟨7, some 0⟩ else if s = "cx" then some ⟨7, some 3⟩ else none⟩

/-- Concrete store configuration with the zero-expiry cipher. -/
def zeroExpiryCfg : CookieStoreConfig Nat := ⟨"sess:s", zeroExpiryCipher, false, 10⟩

/-- Concrete non-rolling store configuration over `wCipher`. -/
def wCfg : CookieStoreConfig Nat := ⟨"sess:s", wCipher, false, 10⟩

/-- Concrete rolling store configuration over `wCipher`. -/
def wRollCfg : CookieStoreConfig Nat := ⟨"sess:s", wCipher, true, 20⟩

/-!  Claim C3. -/

/-- Counterexample to claim C3 as stated: the decrypted envelope carries
`_expires = 0`, which is less than `now = 5`, yet `get` returns the stale
data (`ok`), appends no clearing mutation and does not invoke `destroy` —
because `decryptedData._expires && ...` treats the number `0` as falsy. -/
theorem c3_zero_expires_counterexample :
    (0 : Int) < 5
    ∧ cookieStoreGet zeroExpiryCfg 5 "id" (some "c0") [] = (.ok ⟨7, some 0⟩, [])
    ∧ (TriState.ok (⟨7, some 0⟩ : Envelope Nat) ≠ TriState.soft) := by
  refine ⟨by decide, ?_, by decide⟩
  decide

/-- Claim C3 (amended: the embedded `_expires` must be truthy, i.e.
nonzero): if the decrypted envelope carries a nonzero `_expires` less than
the current time, `cookieSessionStore.get` returns the soft-failure marker
(`null`), never the stale data, having first invoked `destroy`, which
appends the cookie-clearing mutation
`Response.cookie(sessionStoreKey, '', {maxAge: -1})`. -/
theorem c3_expired_get_soft_fails_after_destroy
    (cfg : CookieStoreConfig Data) (now : Int) (sessionId c : String)
    (hdrs : List CookieMutation) (env : Envelope Data) (e : Int)
    (hdec : cfg.cipher.decrypt sessionId c = some env)
    (he : env.expires = some e) (hne : e ≠ 0) (hlt : e < now) :
    cookieStoreGet cfg now sessionId (some c) hdrs =
      (.soft, hdrs ++ [⟨cfg.storeKey, "", .maxAge (-1)⟩]) := by
  simp [cookieStoreGet, hdec, isExpired, he, hne, hlt, cookieStoreDestroy]

/-- Witness for the amended claim C3 at a concrete input: a cookie whose
envelope expired at time `3`, read at time `5`. -/
theorem c3_expired_witness :
    cookieStoreGet zeroExpiryCfg 5 "id" (some "cx") [] =
      (.soft, [⟨"sess:s", "", .maxAge (-1)⟩]) :=
  c3_expired_get_soft_fails_after_destroy zeroExpiryCfg 5 "id" "cx" [] ⟨7, some 3⟩ 3
    (by decide) rfl (by decide) (by decide)

/-!  Claim C4. -/

/-- Concrete parser configuration for the C4 evaluation (the `encode`
function stands for `JSON.stringify` plus base64). -/
def c4Cfg : CookieParserConfig Unit := ⟨"test:key", fun _ => "enc", 1800000⟩

/-- The `SessionMeta` of the repository's own test
`should support expireTime in SessionInfo` (`__tests__/cookie.test.ts`):
`{ sessionId: '123', expireTime: 2 * 60 * 60 * 1000 }`. -/
def c4Meta : SessionMetaObj Unit := ⟨(), some 7200000, none⟩

/-- Claim C4, evaluated at the failing input: for a `SessionMeta` carrying
`expireTime = 7200000`, `cookieSessionParser.set` emits a mutation whose
`expires` attribute is the raw value `7200000`
(`new Date(Number(expiresTime))`, i.e. 1970-01-01T02:00Z) — not
`now + 7200000` as the claim (and the repository's own test, which checks
for `new Date(now + 2h).toUTCString()`) requires, for any positive `now`.
The relative-`maxAge` fallback for a meta without the field does hold. -/
theorem c4_absolute_expiry_code_eval :
    (cookieParserSet c4Cfg c4Meta).expiry = .expiresAt 7200000
    ∧ (CookieExpiry.expiresAt 7200000 ≠ .expiresAt (1758000000000 + 7200000))
    ∧ (cookieParserSet c4Cfg ⟨(), none, none⟩).expiry = .maxAge 1800000 := by
  refine ⟨rfl, by decide, rfl⟩

/-!  Claim C5. -/

/-- Counterexample to claim C5 as stated: the second `destroy` call also
returns `true` (`ok`), not the soft-failure marker — the built-in
`cookieSessionStore.destroy` is unconditional. -/
theorem c5_second_destroy_counterexample :
    (cookieStoreDestroy wCfg (cookieStoreDestroy wCfg []).2).1 = TriState.ok ()
    ∧ ((TriState.ok () : TriState Unit) ≠ TriState.soft) := by
  exact ⟨rfl, by decide⟩

/-- Claim C5 (amended): `cookieSessionStore.destroy` returns `true` on
every call — including a second call on the same (already cleared)
identifier — and each call appends the clearing mutation; it never returns
the soft or hard marker. -/
theorem c5_destroy_always_true (cfg : CookieStoreConfig Data)
    (hdrs : List CookieMutation) :
    cookieStoreDestroy cfg hdrs =
      (.ok (), hdrs ++ [⟨cfg.storeKey, "", .maxAge (-1)⟩]) := rfl

/-!  Claim C8. -/

/-- Follows the claim's words (not the source): the TTL a given operation
uses, were `expiresOptions.time` a function "evaluated fresh on each
operation", with `k` the operation index. -/
def specFreshTTL (t : TimeOpt) (cookieMaxAge : Int) (k : Nat) : Int :=
  match t with
  | .noTime => cookieMaxAge
  | .num n => n
  | .timeFn f => f k

/-- A TTL-producing function whose return value changes after its first
invocation. -/
def c8TimeFn : Nat → Int := fun k => if k = 0 then 10 else 20

/-- Store built (via `mkCookieStoreConfig`, mirroring lines 116-120 of
`src/cookie.ts`) with the changing TTL function. -/
def c8Cfg : CookieStoreConfig Nat := mkCookieStoreConfig "sess:s" wCipher false (.timeFn c8TimeFn) 0

/-- Counterexample to claim C8 as stated: with a TTL function returning 10
on its first call and 20 afterwards, the second `set` operation still embeds
`maxAge = 10` — the function is called once, at store construction
(`const maxAge = ...`), so a changed return value does not affect the very
next operation, contradicting the fresh-per-operation reading
(`specFreshTTL` at operation index 1 gives 20). -/
theorem c8_cached_ttl_counterexample :
    ((cookieStoreSet c8Cfg 0 "id" 7 (cookieStoreSet c8Cfg 0 "id" 7 []).2).2.map
        CookieMutation.expiry = [.maxAge 10, .maxAge 10])
    ∧ specFreshTTL (.timeFn c8TimeFn) 0 1 = 20
    ∧ ((10 : Int) ≠ 20) := by
  refine ⟨?_, by decide, by decide⟩
  decide

/-- Claim C8 (amended): the TTL is resolved once, at store construction —
the explicit numeric `expiresOptions.time` if given (and nonzero, JS
truthiness); else, if `expiresOptions.time` is a zero-argument function,
that function's value at its single construction-time invocation; else the
parser-level default `cookieOptions.maxAge` — and every operation that
embeds an expiry uses that cached value. -/
theorem c8_ttl_resolved_once (storeKey : String) (cipher : CipherSpec Data)
    (rolling : Bool) (t : TimeOpt) (cma now : Int) (sessionId : String) (d : Data)
    (hdrs : List CookieMutation) :
    (cookieStoreSet (mkCookieStoreConfig storeKey cipher rolling t cma) now sessionId d hdrs).2
      = hdrs ++ [⟨storeKey, cipher.encrypt sessionId ⟨d, some (now + resolveMaxAge t cma)⟩,
                  .maxAge (resolveMaxAge t cma)⟩]
    ∧ (∀ n : Int, n ≠ 0 → resolveMaxAge (.num n) cma = n)
    ∧ (∀ f : Nat → Int, resolveMaxAge (.timeFn f) cma = f 0)
    ∧ resolveMaxAge .noTime cma = cma := by
  refine ⟨rfl, ?_, fun _ => rfl, rfl⟩
  intro n hn
  simp [resolveMaxAge, hn]

/-- Witness for the amended claim C8 at a concrete input. -/
theorem c8_ttl_resolved_once_witness : resolveMaxAge (.num 5) 0 = 5 :=
  (c8_ttl_resolved_once "k" wCipher false (.num 5) 0 0 "i" (7 : Nat) []).2.1 5 (by decide)

/-!  Claim C2. -/

/-- Claim C2: `cookieSessionStore.set(m, d)` appends a mutation carrying the
encryption, under identifier `m`, of `{...d, _expires: now₁ + maxAge}`; if
that very cookie value is presented back under the store's cookie key and the
embedded `_expires` has not elapsed (`now₂ ≤ now₁ + maxAge`), then
`cookieSessionStore.get(m)` returns `d` again, extended with the injected
`_expires` field — decryption under the same identifier inverts encryption
(the inversion of the external AES/JSON pipeline is the hypothesis
`hinv`). -/
theorem c2_set_get_roundtrip (cfg : CookieStoreConfig Data) (now₁ now₂ : Int)
    (sessionId : String) (d : Data) (hdrs hdrs2 : List CookieMutation)
    (hinv : cfg.cipher.decrypt sessionId
        (cfg.cipher.encrypt sessionId ⟨d, some (now₁ + cfg.maxAge)⟩)
      = some ⟨d, some (now₁ + cfg.maxAge)⟩)
    (httl : now₂ ≤ now₁ + cfg.maxAge) :
    (cookieStoreSet cfg now₁ sessionId d hdrs).2
      = hdrs ++ [⟨cfg.storeKey,
          cfg.cipher.encrypt sessionId ⟨d, some (now₁ + cfg.maxAge)⟩,
          .maxAge cfg.maxAge⟩]
    ∧ ∃ env, (cookieStoreGet cfg now₂ sessionId
          (some (cfg.cipher.encrypt sessionId ⟨d, some (now₁ + cfg.maxAge)⟩)) hdrs2).1
        = .ok env ∧ env.data = d := by
  refine ⟨rfl, ?_⟩
  have hnotexp : isExpired (some (now₁ + cfg.maxAge)) now₂ = false := by
    simp [isExpired]
    intro _
    exact httl
  by_cases hr : cfg.rolling
  · exact ⟨⟨d, some (now₂ + cfg.maxAge)⟩, by simp [cookieStoreGet, hinv, hnotexp, hr], rfl⟩
  · exact ⟨⟨d, some (now₁ + cfg.maxAge)⟩, by simp [cookieStoreGet, hinv, hnotexp, hr], rfl⟩

/-- Witness for claim C2 at a concrete input: `d = 7`, `now₁ = 10`,
`maxAge = 10`, read back at `now₂ = 15`. -/
theorem c2_set_get_roundtrip_witness :
    ∃ env, (cookieStoreGet wCfg 15 "id" (some (wCipher.encrypt "id" ⟨7, some 20⟩)) []).1
      = .ok env ∧ env.data = 7 :=
  (c2_set_get_roundtrip wCfg 10 15 "id" 7 [] [] (by decide) (by decide)).2

/-!  Claim C6. -/

/-- Claim C6: for every cookie value (in particular any modification of a
valid encrypted one), `cookieSessionStore.get` (1) never produces the
hard-failure marker and never throws — every decryption or JSON-parse error
is caught; (2) whenever the decryption/parse of the presented value fails
(the catch path), the result is exactly the soft-failure marker with the
accumulator untouched; and (3) any successfully returned payload is the
genuine decryption of the presented value under that identifier — never
forged data. -/
theorem c6_tamper_downgraded_to_soft (cfg : CookieStoreConfig Data) (now : Int)
    (sessionId : String) (cookieVal : Option String) (hdrs : List CookieMutation) :
    ((cookieStoreGet cfg now sessionId cookieVal hdrs).1 ≠ .hard)
    ∧ (∀ c, cookieVal = some c → cfg.cipher.decrypt sessionId c = none →
        cookieStoreGet cfg now sessionId cookieVal hdrs = (.soft, hdrs))
    ∧ (∀ env2, (cookieStoreGet cfg now sessionId cookieVal hdrs).1 = .ok env2 →
        ∃ c env, cookieVal = some c ∧ cfg.cipher.decrypt sessionId c = some env
          ∧ env2.data = env.data) := by
  refine ⟨?_, ?_, ?_⟩
  · match cookieVal with
    | none => simp [cookieStoreGet]
    | some s =>
      match hdec : cfg.cipher.decrypt sessionId s with
      | none => simp [cookieStoreGet, hdec]
      | some env =>
        by_cases hexp : isExpired env.expires now
        · simp [cookieStoreGet, hdec, hexp]
        · by_cases hr : cfg.rolling
          · simp [cookieStoreGet, hdec, hexp, hr]
          · simp [cookieStoreGet, hdec, hexp, hr]
  · intro c hc hdec
    subst hc
    simp [cookieStoreGet, hdec]
  · intro env2 hok
    match cookieVal with
    | none => simp [cookieStoreGet] at hok
    | some s =>
      refine ⟨s, ?_⟩
      match hdec : cfg.cipher.decrypt sessionId s with
      | none => simp [cookieStoreGet, hdec] at hok
      | some env =>
        refine ⟨env, rfl, rfl, ?_⟩
        by_cases hexp : isExpired env.expires now
        · simp [cookieStoreGet, hdec, hexp] at hok
        · by_cases hr : cfg.rolling
          · simp [cookieStoreGet, hdec, hexp, hr] at hok
            simp [← hok]
          · simp [cookieStoreGet, hdec, hexp, hr] at hok
            simp [← hok]

/-- Witness for claim C6 at a concrete input: a cookie value that does not
decrypt (a tampered value) is downgraded to the soft marker with the
accumulator untouched. -/
theorem c6_tamper_downgraded_to_soft_witness :
    cookieStoreGet wCfg 0 "id" (some "zz") [] = (.soft, []) :=
  (c6_tamper_downgraded_to_soft wCfg 0 "id" (some "zz") []).2.1 "zz" rfl (by decide)

/-!  Claim C7. -/

/-- Claim C7: with `rolling: true` and resolved TTL `maxAge`, a successful
`get` at time `now₁` returns the envelope with `_expires` re-embedded as
`now₁ + maxAge` and immediately re-sets the session cookie (appending the
re-encrypted mutation) before returning; a second `get` on that re-set
cookie value at `now₂ ≤ now₁ + maxAge` also succeeds and its effective
expiry is `now₂ + maxAge`, not `now₁ + maxAge`. -/
theorem c7_rolling_refresh (cfg : CookieStoreConfig Data) (now₁ now₂ : Int)
    (sessionId c₀ : String) (env₀ : Envelope Data) (hdrs hdrs2 : List CookieMutation)
    (hroll : cfg.rolling = true)
    (hdec : cfg.cipher.decrypt sessionId c₀ = some env₀)
    (hfresh : isExpired env₀.expires now₁ = false)
    (hinv : cfg.cipher.decrypt sessionId
        (cfg.cipher.encrypt sessionId ⟨env₀.data, some (now₁ + cfg.maxAge)⟩)
      = some ⟨env₀.data, some (now₁ + cfg.maxAge)⟩)
    (httl : now₂ ≤ now₁ + cfg.maxAge) :
    cookieStoreGet cfg now₁ sessionId (some c₀) hdrs
      = (.ok ⟨env₀.data, some (now₁ + cfg.maxAge)⟩,
         hdrs ++ [⟨cfg.storeKey,
           cfg.cipher.encrypt sessionId ⟨env₀.data, some (now₁ + cfg.maxAge)⟩,
           .maxAge cfg.maxAge⟩])
    ∧ cookieStoreGet cfg now₂ sessionId
        (some (cfg.cipher.encrypt sessionId ⟨env₀.data, some (now₁ + cfg.maxAge)⟩)) hdrs2
      = (.ok ⟨env₀.data, some (now₂ + cfg.maxAge)⟩,
         hdrs2 ++ [⟨cfg.storeKey,
           cfg.cipher.encrypt sessionId ⟨env₀.data, some (now₂ + cfg.maxAge)⟩,
           .maxAge cfg.maxAge⟩]) := by
  have hnotexp : isExpired (some (now₁ + cfg.maxAge)) now₂ = false := by
    simp [isExpired]
    intro _
    exact httl
  constructor
  · simp [cookieStoreGet, hdec, hfresh, hroll, cookieStoreSet]
  · simp [cookieStoreGet, hinv, hnotexp, hroll, cookieStoreSet]

/-- Witness for claim C7 at a concrete input: `env₀ = ⟨7, some 20⟩` read at
`now₁ = 10` with TTL 20, refreshed cookie read again at `now₂ = 25`. -/
theorem c7_rolling_refresh_witness :
    cookieStoreGet wRollCfg 25 "id"
        (some (wCipher.encrypt "id" ⟨7, some 30⟩)) []
      = (.ok ⟨7, some 45⟩,
         [⟨"sess:s", wCipher.encrypt "id" ⟨7, some 45⟩, .maxAge 20⟩]) :=
  (c7_rolling_refresh wRollCfg 10 25 "id" "a" ⟨7, some 20⟩ [] [] rfl (by decide)
    (by decide) (by decide) (by decide)).2

/-!  Claim C1. -/

/-- Claim C1: for a request whose parsed SessionInfo is present, the
middleware's present-info branch (lines 134-153 of `src/session.ts`)
behaves as follows.  If `sessionStore.get(info)` yields the hard-failure
marker, resolution is the 500 server-error response and the downstream
handler is not invoked (`Resolved.serverError`).  If it yields the
soft-failure marker, resolution equals the session-creation branch
(`createSession`) on the post-`get` state — which is literally the
absent-info branch: any parser whose `get` returned the absent marker
resolves via `createSession`, and `createSession` on a successful
`sessionStore.create` binds the returned meta/data and appends the
`sessionParser.set(meta)` mutation to the accumulator.  If `get` succeeds,
resolution binds the returned meta/data with the state exactly as `get`
left it — no new `Parser.set` mutation is appended. -/
theorem c1_present_info_trichotomy (P : ParserModel Info Meta Resp)
    (S : StoreModel Data Info Meta σ Resp) (st : SessionState σ Resp) (info : Info)
    (hp : P.parsed = some info) :
    ((S.get info st).1 = .hard → resolveSession P S st = .serverError)
    ∧ (∀ st2, S.get info st = (.soft, st2) →
        resolveSession P S st = createSession P S st2
        ∧ (∀ P2 : ParserModel Info Meta Resp, P2.parsed = none →
            ∀ st3, resolveSession P2 S st3 = createSession P2 S st3)
        ∧ (∀ m d st3, S.create none st2 = (.ok (m, d), st3) →
            createSession P S st2 = .active m d ⟨st3.inner, st3.hdrs ++ [P.set m]⟩))
    ∧ (∀ m d st2, S.get info st = (.ok (m, d), st2) →
        resolveSession P S st = .active m d st2) := by
  refine ⟨?_, ?_, ?_⟩
  · intro hh
    match hg : S.get info st with
    | (.hard, st2) => simp [resolveSession, hp, hg]
    | (.soft, st2) => rw [hg] at hh; exact absurd hh (by simp)
    | (.ok a, st2) => rw [hg] at hh; exact absurd hh (by simp)
  · intro st2 hg
    refine ⟨by simp [resolveSession, hp, hg], ?_, ?_⟩
    · intro P2 hp2 st3
      simp [resolveSession, hp2]
    · intro m d st3 hc
      simp [createSession, hc]
  · intro m d st2 hg
    simp [resolveSession, hp, hg]

/-- Constant store over `Nat` used by concrete witnesses: `get` yields the
soft marker, `create` succeeds with meta `3` and data `4`; `set` and
`destroy` succeed. -/
def softGetStore : StoreModel Nat Nat Nat Unit Nat :=
  ⟨fun _ st => (.soft, st),
   fun _ _ st => (.ok (), st),
   fun _ st => (.ok (3, 4), st),
   fun _ st => (.ok (), st)⟩

/-- Concrete parser model whose parse result is present (`some 1`) and whose
mutations are the metas themselves. -/
def presentParserModel : ParserModel Nat Nat Nat := ⟨some 1, fun m => m, fun m => m⟩

/-- Witness for claim C1 at a concrete input: a soft-failing `get` makes the
present-info branch equal the session-creation branch. -/
theorem c1_present_info_trichotomy_witness :
    resolveSession presentParserModel softGetStore ⟨(), []⟩
      = createSession presentParserModel softGetStore ⟨(), []⟩ :=
  ((c1_present_info_trichotomy presentParserModel softGetStore ⟨(), []⟩ 1 rfl).2.1
    ⟨(), []⟩ rfl).1

/-!  Claim C9. -/

/-- Claim C9: `sessionCtx.regenerateId()` returns `false` when the session
context holds no data (leaving everything unchanged); otherwise it calls
`sessionStore.create(request, currentData)` — forwarding the current session
data as the second argument — and: a hard or soft failure from `create` is
returned verbatim (`undefined` / `null`, not coerced to a boolean), with the
meta binding unchanged; on success it rebinds `sessionMetaCtx` to the new
meta, appends a `sessionParser.set(newMeta)` mutation to the accumulator and
returns `true`. -/
theorem c9_regenerate_id (P : ParserModel Info Meta Resp)
    (S : StoreModel Data Info Meta σ Resp) (metaCtx : Option Meta)
    (st : SessionState σ Resp) :
    (regenerateId P S none metaCtx st = (.noSession, metaCtx, st))
    ∧ (∀ d st2, (S.create (some d) st = (.hard, st2) →
          regenerateId P S (some d) metaCtx st = (.hardUndef, metaCtx, st2))
        ∧ (S.create (some d) st = (.soft, st2) →
          regenerateId P S (some d) metaCtx st = (.softNull, metaCtx, st2)))
    ∧ (∀ d m d2 st2, S.create (some d) st = (.ok (m, d2), st2) →
        regenerateId P S (some d) metaCtx st
          = (.okTrue, some m, ⟨st2.inner, st2.hdrs ++ [P.set m]⟩)) := by
  refine ⟨rfl, ?_, ?_⟩
  · intro d st2
    exact ⟨fun hc => by simp [regenerateId, hc], fun hc => by simp [regenerateId, hc]⟩
  · intro d m d2 st2 hc
    simp [regenerateId, hc]

/-- Witness for claim C9 at a concrete input: with data `9` in the context,
`create` succeeds with meta `3`, which is rebound, its `Parser.set` mutation
appended, and `true` returned. -/
theorem c9_regenerate_id_witness :
    regenerateId presentParserModel softGetStore (some 9) none ⟨(), []⟩
      = (.okTrue, some 3, ⟨(), [3]⟩) :=
  (c9_regenerate_id presentParserModel softGetStore none ⟨(), []⟩).2.2 9 3 4 ⟨(), []⟩ rfl

/-!  Claim C10. -/

/-- Claim C10: the built-in `cookieSessionStore` never produces the
hard-failure marker from any operation — `get` returns either the decrypted
envelope or the soft marker, `set` and `destroy` unconditionally return
`true`, and `create` always succeeds — and, composed with the orchestrator,
a store with these return values can never trigger the 500 response of the
resolution phase nor the 500/401 responses of the autosave phase. -/
theorem c10_builtin_store_never_hard {Data Data2 Info Meta σ Resp : Type}
    (cfg : CookieStoreConfig Data) (now : Int) (sessionId newId : String)
    (cookieVal : Option String) (hdrs : List CookieMutation) (d : Data)
    (dataCreator : Option Data → Data) (carried : Option Data) :
    ((cookieStoreGet cfg now sessionId cookieVal hdrs).1 ≠ .hard)
    ∧ (cookieStoreSet cfg now sessionId d hdrs).1 = .ok ()
    ∧ (cookieStoreDestroy cfg hdrs).1 = .ok ()
    ∧ cookieStoreCreate newId dataCreator carried = TriState.ok (newId, dataCreator carried)
    ∧ (∀ (S : StoreModel Data2 Info Meta σ Resp) (P : ParserModel Info Meta Resp)
          (st : SessionState σ Resp),
        (∀ i st0, (S.get i st0).1 ≠ .hard) →
        (∀ c st0, (S.create c st0).1 ≠ .soft ∧ (S.create c st0).1 ≠ .hard) →
        resolveSession P S st ≠ .serverError)
    ∧ (∀ (S : StoreModel Data2 Info Meta σ Resp) (b : Bool) (mc : Option Meta)
          (dc : Data2) (st : SessionState σ Resp),
        (∀ m dd st0, (S.set m dd st0).1 = .ok ()) →
        autoSaveStep S b mc dc st ≠ .err500 ∧ autoSaveStep S b mc dc st ≠ .err401) := by
  refine ⟨?_, rfl, rfl, rfl, ?_, ?_⟩
  · match cookieVal with
    | none => simp [cookieStoreGet]
    | some s =>
      match hdec : cfg.cipher.decrypt sessionId s with
      | none => simp [cookieStoreGet, hdec]
      | some env =>
        by_cases hexp : isExpired env.expires now
        · simp [cookieStoreGet, hdec, hexp]
        · by_cases hr : cfg.rolling
          · simp [cookieStoreGet, hdec, hexp, hr]
          · simp [cookieStoreGet, hdec, hexp, hr]
  · intro S P st hget hcreate
    have hcs : ∀ st4 : SessionState σ Resp, createSession P S st4 ≠ .serverError := by
      intro st4
      match hc : S.create none st4 with
      | (.ok (m, d2), st5) => simp [createSession, hc]
      | (.soft, st5) => exact absurd (by rw [hc] : (S.create none st4).1 = .soft) (hcreate none st4).1
      | (.hard, st5) => exact absurd (by rw [hc] : (S.create none st4).1 = .hard) (hcreate none st4).2
    match hp : P.parsed with
    | none => simp [resolveSession, hp]; exact hcs st
    | some info =>
      match hg : S.get info st with
      | (.ok (m, d2), st2) => simp [resolveSession, hp, hg]
      | (.soft, st2) => simp [resolveSession, hp, hg]; exact hcs st2
      | (.hard, st2) => exact absurd (by rw [hg] : (S.get info st).1 = .hard) (hget info st)
  · intro S b mc dc st hset
    match b, mc with
    | true, some m =>
      have h := hset m dc st
      match hs : S.set m dc st with
      | (.ok (), st2) => constructor <;> simp [autoSaveStep, hs]
      | (.soft, st2) => rw [hs] at h; exact absurd h (by simp)
      | (.hard, st2) => rw [hs] at h; exact absurd h (by simp)
    | true, none => constructor <;> simp [autoSaveStep]
    | false, mc => constructor <;> simp [autoSaveStep]

/-- Witness for claim C10 at a concrete input: a `get` on an absent cookie
is not the hard marker, and the autosave step over `softGetStore` cannot
produce the 401 response. -/
theorem c10_builtin_store_never_hard_witness :
    ((cookieStoreGet wCfg 0 "id" none []).1 ≠ .hard)
    ∧ autoSaveStep softGetStore true (some 3) 4 ⟨(), []⟩ ≠ .err401 :=
  ⟨(@c10_builtin_store_never_hard Nat Nat Nat Nat Unit Nat
      wCfg 0 "id" "n" none [] 7 (fun _ => 7) none).1,
   ((@c10_builtin_store_never_hard Nat Nat Nat Nat Unit Nat
      wCfg 0 "id" "n" none [] 7 (fun _ => 7)
      none).2.2.2.2.2 softGetStore true (some 3) 4 ⟨(), []⟩ (fun _ _ _ => rfl)).2⟩

end FarrowSession
